import Mathlib

/-!
Shallow embedding of src/static/app.js, a browser-side data-binding layer
for a hospital administration interface.  DOM table bodies are modelled as
lists of rows, transient notifications as an appended list of messages,
HTTP round-trips as a response value carrying the success flag and the
already-parsed JSON body, and the page bootstrap as a list of wiring
actions.  Records (Patient, Appointment, Bill, Overview) carry their
fields as strings, matching the duck-typed JSON payloads the script
interpolates into markup; the optional Patient contact field is an
Option String, so that the JavaScript expression
  patient.contact || ""
becomes Option.getD with default "" (present strings, including the empty
string, and an absent field behave exactly as the JavaScript does).
-/

namespace AppJs

/-- Kind of a flash notification: the script passes "success" or "error". -/
inductive MsgKind where
  | success
  | error
deriving DecidableEq, Repr

/-- One table cell: its text content, its colspan and its class attribute.
Ordinary data cells have colspan 1 and no class; the placeholder cell of an
empty table uses colspan 6 and class "muted". -/
structure Cell where
  text : String
  colspan : Nat
  className : String
deriving DecidableEq, Repr

/-- One table row, as the list of its cells. -/
structure Row where
  cells : List Cell
deriving DecidableEq, Repr

/-- Texts of the cells of a row, in order. -/
def cellTexts (r : Row) : List String :=
  r.cells.map (fun c => c.text)

/-- Patient record as rendered by renderPatients: id, name, age, gender,
optional contact, created_at.  Fields are the strings the interpolation
produces. -/
structure Patient where
  id : String
  name : String
  age : String
  gender : String
  contact : Option String
  created_at : String
deriving DecidableEq, Repr

/-- Appointment record as rendered by renderAppointments. -/
structure Appointment where
  id : String
  patient_name : String
  patient_id : String
  date : String
  time : String
  reason : String
  status : String
deriving DecidableEq, Repr

/-- Bill record as rendered by renderBills. -/
structure Bill where
  id : String
  patient_name : String
  patient_id : String
  description : String
  amount : String
  status : String
  created_at : String
deriving DecidableEq, Repr

/-- Overview summary returned by GET /api/overview: four counters. -/
structure Overview where
  patients : Nat
  appointments : Nat
  bills : Nat
  unpaid : Nat
deriving DecidableEq, Repr

/-- Data cell with colspan 1 and empty class, the shape every template
literal cell of the renderers produces. -/
def td (s : String) : Cell :=
  ⟨s, 1, ""⟩

/-- Row built for one patient (app.js lines 71-82): six cells, the contact
cell being patient.contact || "". -/
def patientRow (p : Patient) : Row :=
  ⟨[td p.id, td p.name, td p.age, td p.gender, td (p.contact.getD ""),
    td p.created_at]⟩

/-- Row built for one appointment (app.js lines 96-107); the second cell is
the composite patient_name (patient_id). -/
def appointmentRow (a : Appointment) : Row :=
  ⟨[td a.id, td (a.patient_name ++ " (" ++ a.patient_id ++ ")"), td a.date,
    td a.time, td a.reason, td a.status]⟩

/-- Row built for one bill (app.js lines 121-132); the second cell is the
composite patient_name (patient_id). -/
def billRow (b : Bill) : Row :=
  ⟨[td b.id, td (b.patient_name ++ " (" ++ b.patient_id ++ ")"),
    td b.description, td b.amount, td b.status, td b.created_at]⟩

/-- Placeholder row written when the patients collection is empty. -/
def patientsPlaceholder : Row :=
  ⟨[⟨"No patients yet.", 6, "muted"⟩]⟩

/-- Placeholder row written when the appointments collection is empty. -/
def appointmentsPlaceholder : Row :=
  ⟨[⟨"No appointments yet.", 6, "muted"⟩]⟩

/-- Placeholder row written when the billing collection is empty. -/
def billsPlaceholder : Row :=
  ⟨[⟨"No billing records yet.", 6, "muted"⟩]⟩

/-- Effect of body.innerHTML = "": the previous body content is discarded. -/
def clearedBody (_prev : List Row) : List Row :=
  []

/-- renderPatients restricted to the table body content it computes: clear
the body, then either write the placeholder row or append one row per
patient via forEach. -/
def renderPatientsBody (prev : List Row) (patients : List Patient) :
    List Row :=
  let b := clearedBody prev
  if patients.isEmpty then [patientsPlaceholder]
  else patients.foldl (fun acc p => acc ++ [patientRow p]) b

/-- renderAppointments restricted to the table body content it computes. -/
def renderAppointmentsBody (prev : List Row) (appointments : List Appointment) :
    List Row :=
  let b := clearedBody prev
  if appointments.isEmpty then [appointmentsPlaceholder]
  else appointments.foldl (fun acc a => acc ++ [appointmentRow a]) b

/-- renderBills restricted to the table body content it computes. -/
def renderBillsBody (prev : List Row) (bills : List Bill) : List Row :=
  let b := clearedBody prev
  if bills.isEmpty then [billsPlaceholder]
  else bills.foldl (fun acc x => acc ++ [billRow x]) b

/-- HTTP round-trip as observed by the script: the success flag of the
response status and the JSON body fetch delivered, already parsed. -/
structure HttpResp (α : Type) where
  ok : Bool
  body : α
deriving DecidableEq, Repr

/-- Parsed JSON object of a POST response: an optional error field plus the
remaining fields, kept opaque as name-value pairs. -/
structure JsonBody where
  error : Option String
  fields : List (String × String)
deriving DecidableEq, Repr

/-- JavaScript s || d for a string-or-absent value: absent and the empty
string fall to the default, every other string is kept. -/
def jsStringOr (o : Option String) (d : String) : String :=
  match o with
  | none => d
  | some s => if s = "" then d else s

/-- getJSON (app.js lines 31-37): throw the generic message on a
non-success status, otherwise the parsed body. -/
def getJSON {α : Type} (r : HttpResp α) : Except String α :=
  if r.ok then Except.ok r.body else Except.error "Request failed"

/-- postJSON (app.js lines 18-29): parse the body regardless of status; on
a non-success status throw data.error || "Request failed", otherwise return
the parsed body. -/
def postJSON (r : HttpResp JsonBody) : Except String JsonBody :=
  let data := r.body
  if r.ok then Except.ok data
  else Except.error (jsStringOr data.error "Request failed")

/-- Page state touched by the script: whether the js-messages host exists,
the flash messages it holds, the three table bodies and the four overview
counters.  An Option models whether the corresponding element exists in the
document (the script checks each with an early return). -/
structure DomState where
  hasMessageHost : Bool
  messages : List (String × MsgKind)
  patientsBody : Option (List Row)
  appointmentsBody : Option (List Row)
  billingBody : Option (List Row)
  totalPatients : Option String
  totalAppointments : Option String
  totalBills : Option String
  totalUnpaid : Option String
deriving DecidableEq, Repr

/-- showMessage (app.js lines 5-16): no-op when the js-messages host is
absent, otherwise append one flash node of the given kind. -/
def showMessage (st : DomState) (text : String) (kind : MsgKind) : DomState :=
  if st.hasMessageHost then
    { st with messages := st.messages ++ [(text, kind)] }
  else st

/-- renderPatients at state level: no-op when the patients-body element is
absent, otherwise replace its content. -/
def renderPatients (st : DomState) (patients : List Patient) : DomState :=
  match st.patientsBody with
  | none => st
  | some prev => { st with patientsBody := some (renderPatientsBody prev patients) }

/-- renderAppointments at state level. -/
def renderAppointments (st : DomState) (appointments : List Appointment) :
    DomState :=
  match st.appointmentsBody with
  | none => st
  | some prev =>
      { st with appointmentsBody := some (renderAppointmentsBody prev appointments) }

/-- renderBills at state level. -/
def renderBills (st : DomState) (bills : List Bill) : DomState :=
  match st.billingBody with
  | none => st
  | some prev => { st with billingBody := some (renderBillsBody prev bills) }

/-- node.textContent = value, guarded by the if (node) check of
refreshOverview. -/
def setText (node : Option String) (value : String) : Option String :=
  match node with
  | none => none
  | some _ => some value

/-- Form element: current field values and the default values that
form.reset() restores (empty strings for the create forms of this app). -/
structure Form where
  values : List (String × String)
  defaults : List (String × String)
deriving DecidableEq, Repr

/-- form.reset(): every field goes back to its default value. -/
def Form.reset (f : Form) : Form :=
  { f with values := f.defaults }

/-- Submit handler registered by wireForm (app.js lines 44-57), given the
response of the POST it issued.  Returns the form after the handler, the
page state after the handler, and the argument the onSuccess callback was
invoked with (none when it was not invoked). -/
def handleSubmit (f : Form) (hasCallback : Bool) (st : DomState)
    (resp : HttpResp JsonBody) : Form × DomState × Option JsonBody :=
  match postJSON resp with
  | Except.ok created =>
      (f.reset, showMessage st "Saved successfully." MsgKind.success,
       if hasCallback then some created else none)
  | Except.error msg =>
      (f, showMessage st msg MsgKind.error, none)

/-- refreshOverview (app.js lines 135-153): on success write the four
counters into whichever counter elements exist, on failure show one generic
error notification. -/
def refreshOverview (st : DomState) (resp : HttpResp Overview) : DomState :=
  match getJSON resp with
  | Except.ok d =>
      { st with
        totalPatients := setText st.totalPatients (toString d.patients),
        totalAppointments := setText st.totalAppointments (toString d.appointments),
        totalBills := setText st.totalBills (toString d.bills),
        totalUnpaid := setText st.totalUnpaid (toString d.unpaid) }
  | Except.error _ => showMessage st "Unable to refresh overview." MsgKind.error

/-- refreshPatients (app.js lines 155-162). -/
def refreshPatients (st : DomState) (resp : HttpResp (List Patient)) :
    DomState :=
  match getJSON resp with
  | Except.ok patients => renderPatients st patients
  | Except.error _ => showMessage st "Unable to refresh patients." MsgKind.error

/-- refreshAppointments (app.js lines 164-171). -/
def refreshAppointments (st : DomState) (resp : HttpResp (List Appointment)) :
    DomState :=
  match getJSON resp with
  | Except.ok appointments => renderAppointments st appointments
  | Except.error _ =>
      showMessage st "Unable to refresh appointments." MsgKind.error

/-- refreshBills (app.js lines 173-180). -/
def refreshBills (st : DomState) (resp : HttpResp (List Bill)) : DomState :=
  match getJSON resp with
  | Except.ok bills => renderBills st bills
  | Except.error _ =>
      showMessage st "Unable to refresh billing records." MsgKind.error

/-- The four refresh routines, for naming bootstrap actions. -/
inductive Routine where
  | overview
  | patients
  | appointments
  | bills
deriving DecidableEq, Repr

/-- One wiring step performed at load time. -/
inductive Action where
  | wire (selector : String) (endpoint : String) (onSuccess : Routine)
  | refresh (r : Routine)
  | startTimer (r : Routine) (intervalMs : Nat)
deriving DecidableEq, Repr

/-- Page dispatch (app.js lines 182-203): the four if-blocks on the value
of document.body.dataset.page, each recorded as its list of actions in
program order. -/
def bootstrap (page : String) : List Action :=
  (if page = "index" then
    [Action.refresh Routine.overview,
     Action.startTimer Routine.overview 5000]
   else []) ++
  (if page = "patients" then
    [Action.wire "form" "/api/patients" Routine.patients,
     Action.refresh Routine.patients,
     Action.startTimer Routine.patients 7000]
   else []) ++
  (if page = "appointments" then
    [Action.wire "form" "/api/appointments" Routine.appointments,
     Action.refresh Routine.appointments,
     Action.startTimer Routine.appointments 7000]
   else []) ++
  (if page = "billing" then
    [Action.wire "form" "/api/bills" Routine.bills,
     Action.refresh Routine.bills,
     Action.startTimer Routine.bills 7000]
   else [])

/-- Timed view of the notifier: showMessage called at time t (milliseconds)
records the insertion instant when the host exists; the setTimeout of 4000
removes the node 4000 ms later. -/
def showMessageAt (hasHost : Bool) (trace : List Nat) (t : Nat) : List Nat :=
  if hasHost then trace ++ [t] else trace

/-- Insertion instants whose node is still in the display at time t: those
inserted at s with s ≤ t and t < s + 4000, the 4000 being the setTimeout
delay of showMessage. -/
def visibleAt (trace : List Nat) (t : Nat) : List Nat :=
  trace.filter (fun s => decide (s ≤ t ∧ t < s + 4000))

/-- All field values of a patient, in column order, the optional contact
taken as the string the renderer would show. -/
def patientFields (p : Patient) : List String :=
  [p.id, p.name, p.age, p.gender, p.contact.getD "", p.created_at]

/-- All field values of an appointment, in declaration order. -/
def appointmentFields (a : Appointment) : List String :=
  [a.id, a.patient_name, a.patient_id, a.date, a.time, a.reason, a.status]

/-- All field values of a bill, in declaration order. -/
def billFields (b : Bill) : List String :=
  [b.id, b.patient_name, b.patient_id, b.description, b.amount, b.status,
   b.created_at]

/-- Concrete patient used to instantiate theorems. -/
def samplePatient : Patient :=
  ⟨"1", "Bob", "42", "M", some "555-0100", "2024-01-01"⟩

/-- Concrete appointment used to instantiate theorems. -/
def sampleAppointment : Appointment :=
  ⟨"3", "Ann", "7", "2024-01-01", "09:00", "Checkup", "Scheduled"⟩

/-- Concrete bill used to instantiate theorems. -/
def sampleBill : Bill :=
  ⟨"9", "Ann", "7", "X-ray", "120", "Unpaid", "2024-01-02"⟩

/-- POST response body carrying the server-side validation error of the
spec example. -/
def nameRequiredBody : JsonBody :=
  ⟨some "Name required", []⟩

/-- Concrete form: one named field holding "Bob", default empty. -/
def sampleForm : Form :=
  ⟨[("name", "Bob")], [("name", "")]⟩

/-- Concrete page state with every element present. -/
def sampleState : DomState :=
  ⟨true, [], some [], some [], some [], some "0", some "0", some "0",
   some "0"⟩

/-- Concrete page state whose js-messages host is absent. -/
def noHostState : DomState :=
  ⟨false, [], none, none, none, none, none, none, none⟩

theorem foldl_append_map {α β : Type} (f : α → β) (l : List α)
    (init : List β) :
    l.foldl (fun acc x => acc ++ [f x]) init = init ++ l.map f := by
  induction l generalizing init with
  | nil => simp
  | cons x xs ih => simp [List.foldl_cons, ih]

theorem renderPatientsBody_eq_map (prev : List Row) (ps : List Patient)
    (h : ps ≠ []) : renderPatientsBody prev ps = ps.map patientRow := by
  cases ps with
  | nil => exact absurd rfl h
  | cons p tl => simp [renderPatientsBody, clearedBody, foldl_append_map]

theorem renderAppointmentsBody_eq_map (prev : List Row)
    (l : List Appointment) (h : l ≠ []) :
    renderAppointmentsBody prev l = l.map appointmentRow := by
  cases l with
  | nil => exact absurd rfl h
  | cons a tl => simp [renderAppointmentsBody, clearedBody, foldl_append_map]

theorem renderBillsBody_eq_map (prev : List Row) (l : List Bill)
    (h : l ≠ []) : renderBillsBody prev l = l.map billRow := by
  cases l with
  | nil => exact absurd rfl h
  | cons b tl => simp [renderBillsBody, clearedBody, foldl_append_map]

theorem window_length_le_one (l : List Nat) (t : Nat)
    (hp : l.Pairwise (fun a b => a + 4000 ≤ b))
    (hmem : ∀ x ∈ l, x ≤ t ∧ t < x + 4000) : l.length ≤ 1 := by
  cases l with
  | nil => simp
  | cons a tl =>
    cases tl with
    | nil => simp
    | cons b rest =>
      exfalso
      rcases List.pairwise_cons.mp hp with ⟨h1, _⟩
      have hab := h1 b (by simp)
      have ha := hmem a (by simp)
      have hb := hmem b (by simp)
      omega

theorem visibleAt_length_le_one (trace : List Nat) (t : Nat)
    (h : trace.Pairwise (fun a b => a + 4000 ≤ b)) :
    (visibleAt trace t).length ≤ 1 := by
  apply window_length_le_one _ t
  · exact List.Pairwise.sublist (List.filter_sublist trace) h
  · intro x hx
    unfold visibleAt at hx
    exact of_decide_eq_true ((List.mem_filter.mp hx).2)

theorem showMessage_touches_only_messages (st : DomState) (text : String)
    (kind : MsgKind) :
    (showMessage st text kind).patientsBody = st.patientsBody ∧
    (showMessage st text kind).appointmentsBody = st.appointmentsBody ∧
    (showMessage st text kind).billingBody = st.billingBody ∧
    (showMessage st text kind).totalPatients = st.totalPatients ∧
    (showMessage st text kind).totalAppointments = st.totalAppointments ∧
    (showMessage st text kind).totalBills = st.totalBills ∧
    (showMessage st text kind).totalUnpaid = st.totalUnpaid := by
  unfold showMessage
  split <;> simp

theorem renderPatients_touches_only_patients (st : DomState)
    (ps : List Patient) :
    (renderPatients st ps).appointmentsBody = st.appointmentsBody ∧
    (renderPatients st ps).billingBody = st.billingBody ∧
    (renderPatients st ps).totalPatients = st.totalPatients ∧
    (renderPatients st ps).totalAppointments = st.totalAppointments ∧
    (renderPatients st ps).totalBills = st.totalBills ∧
    (renderPatients st ps).totalUnpaid = st.totalUnpaid ∧
    (renderPatients st ps).messages = st.messages := by
  unfold renderPatients
  split <;> simp

theorem renderAppointments_touches_only_appointments (st : DomState)
    (l : List Appointment) :
    (renderAppointments st l).patientsBody = st.patientsBody ∧
    (renderAppointments st l).billingBody = st.billingBody ∧
    (renderAppointments st l).totalPatients = st.totalPatients ∧
    (renderAppointments st l).totalAppointments = st.totalAppointments ∧
    (renderAppointments st l).totalBills = st.totalBills ∧
    (renderAppointments st l).totalUnpaid = st.totalUnpaid ∧
    (renderAppointments st l).messages = st.messages := by
  unfold renderAppointments
  split <;> simp

theorem renderBills_touches_only_billing (st : DomState) (l : List Bill) :
    (renderBills st l).patientsBody = st.patientsBody ∧
    (renderBills st l).appointmentsBody = st.appointmentsBody ∧
    (renderBills st l).totalPatients = st.totalPatients ∧
    (renderBills st l).totalAppointments = st.totalAppointments ∧
    (renderBills st l).totalBills = st.totalBills ∧
    (renderBills st l).totalUnpaid = st.totalUnpaid ∧
    (renderBills st l).messages = st.messages := by
  unfold renderBills
  split <;> simp

/-- C1 counterexample: the patient column of an appointment row renders
"Ann (7)", a composite of patient_name and patient_id, which equals no
field of the record, so not every cell text equals the corresponding field
unchanged. -/
theorem C1_counterexample :
    renderAppointmentsBody [] [sampleAppointment] =
      [appointmentRow sampleAppointment] ∧
    cellTexts (appointmentRow sampleAppointment) =
      ["3", "Ann (7)", "2024-01-01", "09:00", "Checkup", "Scheduled"] ∧
    "Ann (7)" ∉ appointmentFields sampleAppointment := by
  refine ⟨rfl, rfl, ?_⟩
  decide

/-- C1 amended: every rendered cell text equals the corresponding field of
the record unchanged, including the Patient contact field (shown verbatim
when present, as the empty string when absent), except that the patient
column of appointment and bill rows composes patient_name and patient_id as
"patient_name (patient_id)", each component unchanged inside the
composition. -/
theorem C1_cells_verbatim (prev : List Row) (ps : List Patient)
    (la : List Appointment) (lb : List Bill)
    (hp : ps ≠ []) (ha : la ≠ []) (hb : lb ≠ []) :
    renderPatientsBody prev ps = ps.map patientRow ∧
    renderAppointmentsBody prev la = la.map appointmentRow ∧
    renderBillsBody prev lb = lb.map billRow ∧
    (∀ p : Patient, cellTexts (patientRow p) =
      [p.id, p.name, p.age, p.gender, p.contact.getD "", p.created_at]) ∧
    (∀ (p : Patient) (s : String), p.contact = some s →
      p.contact.getD "" = s) ∧
    (∀ a : Appointment, cellTexts (appointmentRow a) =
      [a.id, a.patient_name ++ " (" ++ a.patient_id ++ ")", a.date, a.time,
       a.reason, a.status]) ∧
    (∀ b : Bill, cellTexts (billRow b) =
      [b.id, b.patient_name ++ " (" ++ b.patient_id ++ ")", b.description,
       b.amount, b.status, b.created_at]) := by
  refine ⟨renderPatientsBody_eq_map prev ps hp,
    renderAppointmentsBody_eq_map prev la ha,
    renderBillsBody_eq_map prev lb hb, ?_, ?_, ?_, ?_⟩
  · intro p; simp [cellTexts, patientRow, td]
  · intro p s h; simp [h]
  · intro a; simp [cellTexts, appointmentRow, td]
  · intro b; simp [cellTexts, billRow, td]

/-- C1 witness: the amended statement instantiated at singleton
collections and a patient with a present contact field. -/
theorem C1_cells_verbatim_witness :
    renderPatientsBody [] [samplePatient] = [patientRow samplePatient] ∧
    cellTexts (patientRow samplePatient) =
      ["1", "Bob", "42", "M", "555-0100", "2024-01-01"] ∧
    samplePatient.contact.getD "" = "555-0100" := by
  have h := C1_cells_verbatim [] [samplePatient] [sampleAppointment]
    [sampleBill] (List.cons_ne_nil _ _) (List.cons_ne_nil _ _)
    (List.cons_ne_nil _ _)
  refine ⟨h.1, ?_, h.2.2.2.2.1 samplePatient "555-0100" rfl⟩
  rw [h.2.2.2.1 samplePatient]
  decide

/-- C2 counterexample: a non-success response whose error field is present
but empty makes postJSON fall back to the generic message, although the
claim allows the fallback only when the field is absent. -/
theorem C2_counterexample :
    (HttpResp.mk false (JsonBody.mk (some "") [])).ok = false ∧
    (HttpResp.mk false (JsonBody.mk (some "") [])).body.error = some "" ∧
    postJSON (HttpResp.mk false (JsonBody.mk (some "") [])) =
      Except.error "Request failed" ∧
    "Request failed" ≠ "" := by
  refine ⟨rfl, rfl, ?_, by decide⟩
  simp [postJSON, jsStringOr]

/-- C2 amended: getJSON fails with "Request failed" exactly on non-success
status and otherwise resolves with the parsed body; postJSON resolves with
the parsed body on success, and on non-success fails with the server error
field when it is a non-empty string, falling back to "Request failed" when
the field is absent or empty. -/
theorem C2_http_helpers (α : Type) (r : HttpResp α)
    (rp : HttpResp JsonBody) :
    (r.ok = false → getJSON r = Except.error "Request failed") ∧
    (r.ok = true → getJSON r = Except.ok r.body) ∧
    (rp.ok = true → postJSON rp = Except.ok rp.body) ∧
    (rp.ok = false → rp.body.error = none ∨ rp.body.error = some "" →
      postJSON rp = Except.error "Request failed") ∧
    (∀ s : String, rp.ok = false → rp.body.error = some s → s ≠ "" →
      postJSON rp = Except.error s) := by
  refine ⟨?_, ?_, ?_, ?_, ?_⟩
  · intro h; simp [getJSON, h]
  · intro h; simp [getJSON, h]
  · intro h; simp [postJSON, h]
  · intro h he
    rcases he with he | he <;> simp [postJSON, h, jsStringOr, he]
  · intro s h he hs
    simp [postJSON, h, jsStringOr, he, hs]

/-- C2 witness: both helpers evaluated on concrete responses covering the
success case, the absent error field, and the spec example
error "Name required". -/
theorem C2_http_helpers_witness :
    getJSON (HttpResp.mk false (0 : Nat)) = Except.error "Request failed" ∧
    getJSON (HttpResp.mk true (0 : Nat)) = Except.ok 0 ∧
    postJSON (HttpResp.mk true nameRequiredBody) =
      Except.ok nameRequiredBody ∧
    postJSON (HttpResp.mk false (JsonBody.mk none [])) =
      Except.error "Request failed" ∧
    postJSON (HttpResp.mk false nameRequiredBody) =
      Except.error "Name required" :=
  ⟨(C2_http_helpers Nat ⟨false, 0⟩ ⟨false, ⟨none, []⟩⟩).1 rfl,
   (C2_http_helpers Nat ⟨true, 0⟩ ⟨false, ⟨none, []⟩⟩).2.1 rfl,
   (C2_http_helpers Nat ⟨true, 0⟩ ⟨true, nameRequiredBody⟩).2.2.1 rfl,
   (C2_http_helpers Nat ⟨true, 0⟩ ⟨false, ⟨none, []⟩⟩).2.2.2.1 rfl
     (Or.inl rfl),
   (C2_http_helpers Nat ⟨true, 0⟩ ⟨false, nameRequiredBody⟩).2.2.2.2
     "Name required" rfl rfl (by decide)⟩

/-- C3: each non-empty collection renders one row per record in input
order, and every specified field value occurs as text inside some cell of
its record's row. -/
theorem C3_one_row_per_record (prev : List Row) (ps : List Patient)
    (la : List Appointment) (lb : List Bill)
    (hp : ps ≠ []) (ha : la ≠ []) (hb : lb ≠ []) :
    renderPatientsBody prev ps = ps.map patientRow ∧
    renderAppointmentsBody prev la = la.map appointmentRow ∧
    renderBillsBody prev lb = lb.map billRow ∧
    (∀ p : Patient, ∀ f ∈ patientFields p,
      ∃ c ∈ cellTexts (patientRow p), ∃ u v, c = u ++ f ++ v) ∧
    (∀ a : Appointment, ∀ f ∈ appointmentFields a,
      ∃ c ∈ cellTexts (appointmentRow a), ∃ u v, c = u ++ f ++ v) ∧
    (∀ b : Bill, ∀ f ∈ billFields b,
      ∃ c ∈ cellTexts (billRow b), ∃ u v, c = u ++ f ++ v) := by
  refine ⟨renderPatientsBody_eq_map prev ps hp,
    renderAppointmentsBody_eq_map prev la ha,
    renderBillsBody_eq_map prev lb hb, ?_, ?_, ?_⟩
  · intro p f hf
    simp only [patientFields, List.mem_cons, List.not_mem_nil, or_false] at hf
    rcases hf with rfl | rfl | rfl | rfl | rfl | rfl
    · exact ⟨p.id, by simp [cellTexts, patientRow, td], "", "", by simp⟩
    · exact ⟨p.name, by simp [cellTexts, patientRow, td], "", "", by simp⟩
    · exact ⟨p.age, by simp [cellTexts, patientRow, td], "", "", by simp⟩
    · exact ⟨p.gender, by simp [cellTexts, patientRow, td], "", "", by simp⟩
    · exact ⟨p.contact.getD "", by simp [cellTexts, patientRow, td], "", "",
        by simp⟩
    · exact ⟨p.created_at, by simp [cellTexts, patientRow, td], "", "",
        by simp⟩
  · intro a f hf
    simp only [appointmentFields, List.mem_cons, List.not_mem_nil,
      or_false] at hf
    rcases hf with rfl | rfl | rfl | rfl | rfl | rfl | rfl
    · exact ⟨a.id, by simp [cellTexts, appointmentRow, td], "", "", by simp⟩
    · exact ⟨a.patient_name ++ " (" ++ a.patient_id ++ ")",
        by simp [cellTexts, appointmentRow, td], "",
        " (" ++ a.patient_id ++ ")", by simp [String.append_assoc]⟩
    · exact ⟨a.patient_name ++ " (" ++ a.patient_id ++ ")",
        by simp [cellTexts, appointmentRow, td],
        a.patient_name ++ " (", ")", rfl⟩
    · exact ⟨a.date, by simp [cellTexts, appointmentRow, td], "", "",
        by simp⟩
    · exact ⟨a.time, by simp [cellTexts, appointmentRow, td], "", "",
        by simp⟩
    · exact ⟨a.reason, by simp [cellTexts, appointmentRow, td], "", "",
        by simp⟩
    · exact ⟨a.status, by simp [cellTexts, appointmentRow, td], "", "",
        by simp⟩
  · intro b f hf
    simp only [billFields, List.mem_cons, List.not_mem_nil, or_false] at hf
    rcases hf with rfl | rfl | rfl | rfl | rfl | rfl | rfl
    · exact ⟨b.id, by simp [cellTexts, billRow, td], "", "", by simp⟩
    · exact ⟨b.patient_name ++ " (" ++ b.patient_id ++ ")",
        by simp [cellTexts, billRow, td], "",
        " (" ++ b.patient_id ++ ")", by simp [String.append_assoc]⟩
    · exact ⟨b.patient_name ++ " (" ++ b.patient_id ++ ")",
        by simp [cellTexts, billRow, td],
        b.patient_name ++ " (", ")", rfl⟩
    · exact ⟨b.description, by simp [cellTexts, billRow, td], "", "",
        by simp⟩
    · exact ⟨b.amount, by simp [cellTexts, billRow, td], "", "", by simp⟩
    · exact ⟨b.status, by simp [cellTexts, billRow, td], "", "", by simp⟩
    · exact ⟨b.created_at, by simp [cellTexts, billRow, td], "", "",
        by simp⟩

/-- C3 witness: the row equations instantiated at concrete singleton
collections. -/
theorem C3_one_row_per_record_witness :
    renderPatientsBody [] [samplePatient] = [patientRow samplePatient] ∧
    renderAppointmentsBody [] [sampleAppointment] =
      [appointmentRow sampleAppointment] ∧
    renderBillsBody [] [sampleBill] = [billRow sampleBill] := by
  have h := C3_one_row_per_record [] [samplePatient] [sampleAppointment]
    [sampleBill] (List.cons_ne_nil _ _) (List.cons_ne_nil _ _)
    (List.cons_ne_nil _ _)
  exact ⟨h.1, h.2.1, h.2.2.1⟩

/-- C4: an empty collection renders exactly one placeholder row whose
single cell spans all six columns and names the collection, six being the
number of cells of every data row. -/
theorem C4_empty_placeholder (prev : List Row) :
    renderPatientsBody prev [] =
      [Row.mk [Cell.mk "No patients yet." 6 "muted"]] ∧
    renderAppointmentsBody prev [] =
      [Row.mk [Cell.mk "No appointments yet." 6 "muted"]] ∧
    renderBillsBody prev [] =
      [Row.mk [Cell.mk "No billing records yet." 6 "muted"]] ∧
    (∀ p : Patient, (patientRow p).cells.length = 6) ∧
    (∀ a : Appointment, (appointmentRow a).cells.length = 6) ∧
    (∀ b : Bill, (billRow b).cells.length = 6) := by
  refine ⟨rfl, rfl, rfl, ?_, ?_, ?_⟩ <;> intro x <;> rfl

/-- C5: when the POST of a submission fails, the submit handler leaves the
form fields unmodified, appends exactly one error notification whose text
is the failure message, invokes no callback; in the spec example the
message is "Name required". -/
theorem C5_failed_submit (f : Form) (cb : Bool) (st : DomState)
    (resp : HttpResp JsonBody) (hok : resp.ok = false)
    (hhost : st.hasMessageHost = true) :
    (handleSubmit f cb st resp).1 = f ∧
    (handleSubmit f cb st resp).2.1.messages =
      st.messages ++
        [(jsStringOr resp.body.error "Request failed", MsgKind.error)] ∧
    (handleSubmit f cb st resp).2.2 = none ∧
    (resp.body.error = some "Name required" →
      jsStringOr resp.body.error "Request failed" = "Name required") := by
  refine ⟨?_, ?_, ?_, ?_⟩
  · simp [handleSubmit, postJSON, hok]
  · simp [handleSubmit, postJSON, hok, showMessage, hhost]
  · simp [handleSubmit, postJSON, hok]
  · intro h
    rw [h]
    decide

/-- C5 witness: the failed-submission behavior at a concrete form, state
and the spec example response error "Name required". -/
theorem C5_failed_submit_witness :
    (handleSubmit sampleForm false sampleState
      (HttpResp.mk false nameRequiredBody)).1 = sampleForm ∧
    (handleSubmit sampleForm false sampleState
      (HttpResp.mk false nameRequiredBody)).2.1.messages =
      [("Name required", MsgKind.error)] := by
  have h := C5_failed_submit sampleForm false sampleState
    (HttpResp.mk false nameRequiredBody) rfl rfl
  refine ⟨h.1, ?_⟩
  rw [h.2.1]
  decide

/-- C6: when the POST of a submission succeeds, the submit handler resets
the form to its default (empty) field values, appends exactly one success
notification, and invokes the onSuccess callback with the created-record
payload of the response. -/
theorem C6_successful_submit (f : Form) (st : DomState)
    (resp : HttpResp JsonBody) (hok : resp.ok = true)
    (hhost : st.hasMessageHost = true) :
    (handleSubmit f true st resp).1 = f.reset ∧
    (handleSubmit f true st resp).1.values = f.defaults ∧
    (handleSubmit f true st resp).2.1.messages =
      st.messages ++ [("Saved successfully.", MsgKind.success)] ∧
    (handleSubmit f true st resp).2.2 = some resp.body := by
  refine ⟨?_, ?_, ?_, ?_⟩
  · simp [handleSubmit, postJSON, hok]
  · simp [handleSubmit, postJSON, hok, Form.reset]
  · simp [handleSubmit, postJSON, hok, showMessage, hhost]
  · simp [handleSubmit, postJSON, hok]

/-- C6 witness: a concrete successful submission clears the sample form
and hands the created record to the callback. -/
theorem C6_successful_submit_witness :
    (handleSubmit sampleForm true sampleState
      (HttpResp.mk true (JsonBody.mk none [("id", "1")]))).1.values =
      [("name", "")] ∧
    (handleSubmit sampleForm true sampleState
      (HttpResp.mk true (JsonBody.mk none [("id", "1")]))).2.1.messages =
      [("Saved successfully.", MsgKind.success)] ∧
    (handleSubmit sampleForm true sampleState
      (HttpResp.mk true (JsonBody.mk none [("id", "1")]))).2.2 =
      some (JsonBody.mk none [("id", "1")]) := by
  have h := C6_successful_submit sampleForm sampleState
    (HttpResp.mk true (JsonBody.mk none [("id", "1")])) rfl rfl
  exact ⟨h.2.1, h.2.2.1, h.2.2.2⟩

/-- C7: when the GET of a refresh routine fails, the routine changes
nothing of the page except appending exactly one generic per-collection
error notification; and refreshPatients never touches the appointments or
billing tables nor the overview counters, whatever its response. -/
theorem C7_failed_refresh (st : DomState)
    (rp : HttpResp (List Patient)) (ra : HttpResp (List Appointment))
    (rb : HttpResp (List Bill)) (ro : HttpResp Overview)
    (hhost : st.hasMessageHost = true) (hp : rp.ok = false)
    (ha : ra.ok = false) (hb : rb.ok = false) (ho : ro.ok = false) :
    refreshPatients st rp =
      { st with messages := st.messages ++
          [("Unable to refresh patients.", MsgKind.error)] } ∧
    refreshAppointments st ra =
      { st with messages := st.messages ++
          [("Unable to refresh appointments.", MsgKind.error)] } ∧
    refreshBills st rb =
      { st with messages := st.messages ++
          [("Unable to refresh billing records.", MsgKind.error)] } ∧
    refreshOverview st ro =
      { st with messages := st.messages ++
          [("Unable to refresh overview.", MsgKind.error)] } ∧
    (∀ resp : HttpResp (List Patient),
      (refreshPatients st resp).appointmentsBody = st.appointmentsBody ∧
      (refreshPatients st resp).billingBody = st.billingBody ∧
      (refreshPatients st resp).totalPatients = st.totalPatients ∧
      (refreshPatients st resp).totalUnpaid = st.totalUnpaid) := by
  refine ⟨?_, ?_, ?_, ?_, ?_⟩
  · simp [refreshPatients, getJSON, hp, showMessage, hhost]
  · simp [refreshAppointments, getJSON, ha, showMessage, hhost]
  · simp [refreshBills, getJSON, hb, showMessage, hhost]
  · simp [refreshOverview, getJSON, ho, showMessage, hhost]
  · intro resp
    unfold refreshPatients
    cases hok : getJSON resp with
    | ok patients =>
        have h := renderPatients_touches_only_patients st patients
        exact ⟨h.1, h.2.1, h.2.2.1, h.2.2.2.2.2.1⟩
    | error e =>
        have h := showMessage_touches_only_messages st
          "Unable to refresh patients." MsgKind.error
        exact ⟨h.2.1, h.2.2.1, h.2.2.2.1, h.2.2.2.2.2.2⟩

/-- C7 witness: the four routines at a concrete state and failing
responses; the patients table keeps its previously rendered rows. -/
theorem C7_failed_refresh_witness :
    refreshPatients sampleState (HttpResp.mk false []) =
      { sampleState with messages :=
          [("Unable to refresh patients.", MsgKind.error)] } ∧
    (refreshPatients sampleState (HttpResp.mk false [])).patientsBody =
      sampleState.patientsBody ∧
    refreshOverview sampleState (HttpResp.mk false ⟨0, 0, 0, 0⟩) =
      { sampleState with messages :=
          [("Unable to refresh overview.", MsgKind.error)] } := by
  have h := C7_failed_refresh sampleState (HttpResp.mk false [])
    (HttpResp.mk false []) (HttpResp.mk false [])
    (HttpResp.mk false ⟨0, 0, 0, 0⟩) rfl rfl rfl rfl rfl
  refine ⟨?_, ?_, ?_⟩
  · rw [h.1]; decide
  · rw [h.1]
  · rw [h.2.2.2.1]; decide

/-- C8: each of the four known data-page values wires exactly its own
initial refresh and repeating timer (5000 ms for index, 7000 ms for the
record pages) plus the form on the three record pages; on the patients
page no appointments or billing refresh or timer ever appears; any other
page value wires nothing. -/
theorem C8_page_dispatch :
    bootstrap "index" = [Action.refresh Routine.overview,
      Action.startTimer Routine.overview 5000] ∧
    bootstrap "patients" = [Action.wire "form" "/api/patients"
      Routine.patients, Action.refresh Routine.patients,
      Action.startTimer Routine.patients 7000] ∧
    bootstrap "appointments" = [Action.wire "form" "/api/appointments"
      Routine.appointments, Action.refresh Routine.appointments,
      Action.startTimer Routine.appointments 7000] ∧
    bootstrap "billing" = [Action.wire "form" "/api/bills" Routine.bills,
      Action.refresh Routine.bills,
      Action.startTimer Routine.bills 7000] ∧
    (∀ r : Routine, Action.refresh r ∈ bootstrap "patients" →
      r = Routine.patients) ∧
    (∀ (r : Routine) (ms : Nat),
      Action.startTimer r ms ∈ bootstrap "patients" →
      r = Routine.patients ∧ ms = 7000) ∧
    (∀ page : String, page ≠ "index" → page ≠ "patients" →
      page ≠ "appointments" → page ≠ "billing" → bootstrap page = []) := by
  have hpat : bootstrap "patients" = [Action.wire "form" "/api/patients"
      Routine.patients, Action.refresh Routine.patients,
      Action.startTimer Routine.patients 7000] := by decide
  refine ⟨by decide, hpat, by decide, by decide, ?_, ?_, ?_⟩
  · intro r h
    rw [hpat] at h
    simp at h
    exact h
  · intro r ms h
    rw [hpat] at h
    simp at h
    exact h
  · intro page h1 h2 h3 h4
    simp [bootstrap, h1, h2, h3, h4]

/-- C8 witness: the patients page wiring evaluated, and an unrecognized
page value wiring nothing. -/
theorem C8_page_dispatch_witness :
    bootstrap "patients" = [Action.wire "form" "/api/patients"
      Routine.patients, Action.refresh Routine.patients,
      Action.startTimer Routine.patients 7000] ∧
    bootstrap "settings" = [] :=
  ⟨C8_page_dispatch.2.1,
   C8_page_dispatch.2.2.2.2.2.2 "settings" (by decide) (by decide)
     (by decide) (by decide)⟩

/-- C9: showMessage is a no-op when the js-messages host is absent; a
message inserted at time s is out of the display at every time from
s + 4000 on; and when successive insertions are at least 4000 ms apart,
as under the 5000 ms and 7000 ms polling timers, at most one notification
is ever visible. -/
theorem C9_notifier (st : DomState) (text : String) (kind : MsgKind)
    (trace : List Nat) (s t : Nat)
    (habsent : st.hasMessageHost = false)
    (hgap : trace.Pairwise (fun a b => a + 4000 ≤ b))
    (hexp : s + 4000 ≤ t) :
    showMessage st text kind = st ∧
    showMessageAt false trace t = trace ∧
    s ∉ visibleAt trace t ∧
    (visibleAt trace t).length ≤ 1 := by
  refine ⟨?_, ?_, ?_, ?_⟩
  · simp [showMessage, habsent]
  · simp [showMessageAt]
  · intro h
    unfold visibleAt at h
    have hw := of_decide_eq_true ((List.mem_filter.mp h).2)
    omega
  · exact visibleAt_length_le_one trace t hgap

/-- C9 witness: with insertions at 0, 5000 and 10000 ms, at time 4000 the
first node is already removed and nothing has accumulated; showMessage on
a host-less page changes nothing. -/
theorem C9_notifier_witness :
    showMessage noHostState "Saved successfully." MsgKind.success =
      noHostState ∧
    0 ∉ visibleAt [0, 5000, 10000] 4000 ∧
    (visibleAt [0, 5000, 10000] 4000).length ≤ 1 := by
  have h := C9_notifier noHostState "Saved successfully." MsgKind.success
    [0, 5000, 10000] 0 4000 rfl (by decide) (by decide)
  exact ⟨h.1, h.2.2.1, h.2.2.2⟩

/-- C10: every renderer discards the previous body content first, so the
resulting body depends only on the input records: two different previous
contents give the same result, and re-rendering the same records is the
same as rendering them once. -/
theorem C10_render_purely_functional (prev prev2 : List Row)
    (ps : List Patient) (la : List Appointment) (lb : List Bill) :
    renderPatientsBody prev ps = renderPatientsBody prev2 ps ∧
    renderPatientsBody (renderPatientsBody prev ps) ps =
      renderPatientsBody prev ps ∧
    renderAppointmentsBody prev la = renderAppointmentsBody prev2 la ∧
    renderAppointmentsBody (renderAppointmentsBody prev la) la =
      renderAppointmentsBody prev la ∧
    renderBillsBody prev lb = renderBillsBody prev2 lb ∧
    renderBillsBody (renderBillsBody prev lb) lb =
      renderBillsBody prev lb :=
  ⟨rfl, rfl, rfl, rfl, rfl, rfl⟩

end AppJs
